import Mathlib

/-
Verification of the WhisperKit transcription sidecar
(src/whisperkit-sidecar/Sources/WhisperKitSidecar/main.swift).

Shallow embedding conventions:
- The opaque loaded-model handle (WhisperKit instance) is modelled as a Nat;
  the engine state `whisperKit : WhisperKit?` becomes `Option Nat`.
- External capabilities (reading the audio file, constructing a model from a
  path, running inference) are an `Env` of oracle functions returning
  `Except String _`, mirroring Swift throwing calls whose thrown error
  surfaces as `error.localizedDescription`.
- A 32-bit float sample is represented by its little-endian 32-bit pattern
  (a Nat below 2^32); `bindMemory(to: Float.self)` on little-endian hardware
  reinterprets each group of 4 bytes as one such word.
- Calls into the environment are recorded in an event trace so that
  "this path is never invoked" is a statement about the trace.
-/

namespace DhivehiFlow

/-- Inbound protocol message; struct Request in main.swift. -/
structure Request where
  type : String
  model_path : Option String
  audio_path : Option String
  language : Option String
deriving DecidableEq

/-- Outbound protocol message; struct Response in main.swift. Optional
fields default to nil in Swift; `none` here. -/
structure Response where
  type : String
  success : Option Bool
  text : Option String
  error : Option String
  model_loaded : Option Bool
deriving DecidableEq

/-- Decoding options built in TranscriptionEngine.transcribe; the three
fields the sidecar touches of WhisperKit's DecodingOptions (language
defaults to nil, the two Booleans default to false). -/
structure DecodingOptions where
  language : Option String
  skipSpecialTokens : Bool
  withoutTimestamps : Bool
deriving DecidableEq

/-- An observable call from the engine into the environment. -/
inductive Event where
  | loadAttempt (path : String)
  | readAudio (path : String)
  | inference (handle : Nat) (samples : List Nat) (opts : DecodingOptions)
deriving DecidableEq

/-- External capabilities consumed by the sidecar: audio-file read (raw
bytes), model construction from a path, and the inference capability. -/
structure Env where
  readFile : String → Except String (List Nat)
  loadModel : String → Except String Nat
  transcribeKit : Nat → List Nat → DecodingOptions → Except String (List String)

/-- Audio decode: `floatCount = audioData.count / 4` and each sample i is
the little-endian 32-bit word at bytes 4i..4i+3; trailing bytes beyond the
last complete word are never read. -/
def bytesToSamples : List Nat → List Nat
  | b0 :: b1 :: b2 :: b3 :: rest =>
      (b0 + 256 * b1 + 65536 * b2 + 16777216 * b3) :: bytesToSamples rest
  | _ => []

/-- Little-endian serialization of one 32-bit word, used to build audio
fixtures for the round-trip property. -/
def wordToBytes (w : Nat) : List Nat :=
  [w % 256, w / 256 % 256, w / 65536 % 256, w / 16777216 % 256]

/-- Little-endian serialization of a sample sequence. -/
def wordsToBytes : List Nat → List Nat
  | [] => []
  | w :: ws => wordToBytes w ++ wordsToBytes ws

/-- Options assembly in TranscriptionEngine.transcribe: start from the
defaults, set the language only when one was given and it is not "auto",
then force skipSpecialTokens and withoutTimestamps. -/
def mkOptions (language : Option String) : DecodingOptions :=
  { language :=
      match language with
      | some lang => if lang = "auto" then none else some lang
      | none => none,
    skipSpecialTokens := true,
    withoutTimestamps := true }

/-- TranscriptionEngine.loadModel: tries to construct a model handle from
the path; on success the handle replaces the previous one, on failure the
assignment never happens and the state is untouched. Returns the new state,
the outcome, and the trace of environment calls. -/
def loadModel (env : Env) (st : Option Nat) (path : String) :
    Option Nat × Except String Unit × List Event :=
  match env.loadModel path with
  | .ok h => (some h, .ok (), [.loadAttempt path])
  | .error e => (st, .error e, [.loadAttempt path])

/-- TranscriptionEngine.transcribe: guard on a loaded model, read the audio
file, decode samples, build options, run inference, join segment texts with
a single space and trim. Returns the outcome and the trace of environment
calls. (Swift trims CharacterSet.whitespacesAndNewlines; String.trim covers
the ASCII whitespace this protocol produces.) -/
def transcribe (env : Env) (st : Option Nat) (audioPath : String)
    (language : Option String) : Except String String × List Event :=
  match st with
  | none => (.error "No model loaded", [])
  | some kit =>
    match env.readFile audioPath with
    | .error e => (.error e, [.readAudio audioPath])
    | .ok audioData =>
      let audioSamples := bytesToSamples audioData
      let options := mkOptions language
      match env.transcribeKit kit audioSamples options with
      | .error e => (.error e, [.readAudio audioPath, .inference kit audioSamples options])
      | .ok results =>
          (.ok (String.intercalate " " results).trim,
           [.readAudio audioPath, .inference kit audioSamples options])

/-- TranscriptionEngine.unloadModel: `whisperKit = nil`, unconditionally. -/
def unloadModel (_st : Option Nat) : Option Nat := none

/-- TranscriptionEngine.isModelLoaded: `whisperKit != nil`. -/
def isModelLoaded (st : Option Nat) : Bool := st.isSome

/-- The reply emitted when a line fails to decode as a Request. -/
def invalidJsonResp : Response :=
  { type := "error", success := some false, text := none,
    error := some "Invalid JSON request", model_loaded := none }

/-- The reply emitted for the shutdown command before exiting. -/
def shutdownAckResp : Response :=
  { type := "shutdown_ack", success := some true, text := none,
    error := none, model_loaded := none }

/-- Dispatch of one parsed request: the switch in the main loop, minus the
shutdown case (which exits inside the switch and is handled by the loop).
Returns the new engine state, the reply, and the trace of environment
calls. -/
def dispatch (env : Env) (st : Option Nat) (req : Request) :
    Option Nat × Response × List Event :=
  if req.type = "load" then
    match req.model_path with
    | none =>
        (st, { type := "loaded", success := some false, text := none,
               error := some "Missing model_path", model_loaded := none }, [])
    | some modelPath =>
        match loadModel env st modelPath with
        | (st', .ok _, evs) =>
            (st', { type := "loaded", success := some true, text := none,
                    error := none, model_loaded := none }, evs)
        | (st', .error e, evs) =>
            (st', { type := "loaded", success := some false, text := none,
                    error := some e, model_loaded := none }, evs)
  else if req.type = "transcribe" then
    match req.audio_path with
    | none =>
        (st, { type := "transcription", success := some false, text := none,
               error := some "Missing audio_path", model_loaded := none }, [])
    | some audioPath =>
        match transcribe env st audioPath req.language with
        | (.ok text, evs) =>
            (st, { type := "transcription", success := some true, text := some text,
                   error := none, model_loaded := none }, evs)
        | (.error e, evs) =>
            (st, { type := "transcription", success := some false, text := none,
                   error := some e, model_loaded := none }, evs)
  else if req.type = "unload" then
    (unloadModel st, { type := "unloaded", success := some true, text := none,
                       error := none, model_loaded := none }, [])
  else if req.type = "health" then
    (st, { type := "health", success := none, text := none,
           error := none, model_loaded := some (isModelLoaded st) }, [])
  else
    (st, { type := "error", success := some false, text := none,
           error := some ("Unknown command: " ++ req.type), model_loaded := none }, [])

/-- One physical input line as the loop observes it: empty (skipped),
failing to decode as a Request, or decoding to a Request. JSONDecoder
accepts any value in the type field, so unknown commands arrive parsed. -/
inductive Line where
  | empty
  | malformed
  | parsed (req : Request)
deriving DecidableEq

/-- How the process ended: exit(0) in the shutdown case, or falling off the
loop at end of input. -/
inductive ExitKind where
  | shutdownExit
  | eofExit
deriving DecidableEq

/-- The process exit code: exit(0) on shutdown, normal return (code 0) on
end of input. -/
def exitCode : ExitKind → Nat
  | .shutdownExit => 0
  | .eofExit => 0

/-- Everything observable about one run of the main loop: replies in
emission order, how the process ended, the environment-call trace, and the
input lines never read (nonempty only when shutdown fired). -/
structure RunResult where
  outputs : List Response
  exit : ExitKind
  trace : List Event
  unread : List Line
deriving DecidableEq

/-- The main loop: read lines until end of input; skip empty lines; reply
with invalidJsonResp on undecodable lines; on shutdown emit the ack and
exit without reading further; otherwise dispatch and emit the reply. -/
def runLoop (env : Env) (st : Option Nat) : List Line → RunResult
  | [] => { outputs := [], exit := .eofExit, trace := [], unread := [] }
  | line :: rest =>
    match line with
    | .empty => runLoop env st rest
    | .malformed =>
        let r := runLoop env st rest
        { outputs := invalidJsonResp :: r.outputs, exit := r.exit,
          trace := r.trace, unread := r.unread }
    | .parsed req =>
        if req.type = "shutdown" then
          { outputs := [shutdownAckResp], exit := .shutdownExit,
            trace := [], unread := rest }
        else
          match dispatch env st req with
          | (st', resp, evs) =>
            let r := runLoop env st' rest
            { outputs := resp :: r.outputs, exit := r.exit,
              trace := evs ++ r.trace, unread := r.unread }

/-- A primitive JSON value as the replies use them. -/
inductive JsonVal where
  | str (s : String)
  | bool (b : Bool)
deriving DecidableEq

/-- Serialization of a Response by JSONEncoder with the synthesized
Encodable conformance: the non-optional type field is always emitted, each
optional field is emitted only when non-nil (encodeIfPresent), never as
null. The result is the list of key/value pairs of the JSON object. -/
def encodeResponse (r : Response) : List (String × JsonVal) :=
  [("type", JsonVal.str r.type)]
  ++ (match r.success with | some b => [("success", JsonVal.bool b)] | none => [])
  ++ (match r.text with | some t => [("text", JsonVal.str t)] | none => [])
  ++ (match r.error with | some e => [("error", JsonVal.str e)] | none => [])
  ++ (match r.model_loaded with | some b => [("model_loaded", JsonVal.bool b)] | none => [])

/-- A fully defined concrete environment for witnesses. -/
def envOk : Env :=
  { readFile := fun _ => .ok [],
    loadModel := fun _ => .ok 0,
    transcribeKit := fun _ _ _ => .ok [] }

/-- A concrete environment whose model load always fails. -/
def envLoadFail : Env :=
  { readFile := fun _ => .ok [],
    loadModel := fun _ => .error "boom",
    transcribeKit := fun _ _ _ => .ok [] }

/-- C1: a transcribe command processed while the engine state is Unloaded
yields a "transcription" reply with success=false carrying the
"No model loaded" message, the environment is never called (no file read,
no inference), and the state stays Unloaded. -/
theorem transcribe_unloaded_fails (env : Env) (req : Request) (p : String)
    (hty : req.type = "transcribe") (hp : req.audio_path = some p) :
    dispatch env none req =
      (none,
       { type := "transcription", success := some false, text := none,
         error := some "No model loaded", model_loaded := none },
       []) := by
  simp [dispatch, hty, hp, transcribe]

theorem transcribe_unloaded_fails_witness :
    dispatch envOk none { type := "transcribe", model_path := none,
                          audio_path := some "a.pcm", language := none } =
      (none,
       { type := "transcription", success := some false, text := none,
         error := some "No model loaded", model_loaded := none },
       []) :=
  transcribe_unloaded_fails envOk
    { type := "transcribe", model_path := none,
      audio_path := some "a.pcm", language := none } "a.pcm" rfl rfl

/-- C3: a load command whose underlying model construction fails leaves the
engine state exactly as it was (a previously loaded handle stays that same
handle; Unloaded stays Unloaded) and replies with type "loaded",
success=false, carrying the underlying error message. -/
theorem load_failure_preserves_state (env : Env) (st : Option Nat)
    (req : Request) (p : String) (e : String)
    (hty : req.type = "load") (hp : req.model_path = some p)
    (hf : env.loadModel p = .error e) :
    dispatch env st req =
      (st,
       { type := "loaded", success := some false, text := none,
         error := some e, model_loaded := none },
       [.loadAttempt p]) := by
  simp [dispatch, hty, hp, loadModel, hf]

theorem load_failure_preserves_state_witness :
    dispatch envLoadFail (some 7)
      { type := "load", model_path := some "m", audio_path := none, language := none } =
      (some 7,
       { type := "loaded", success := some false, text := none,
         error := some "boom", model_loaded := none },
       [.loadAttempt "m"]) :=
  load_failure_preserves_state envLoadFail (some 7)
    { type := "load", model_path := some "m", audio_path := none, language := none }
    "m" "boom" rfl rfl rfl

/-- C4: unload is idempotent: from any engine state an unload command moves
the state to Unloaded and replies "unloaded" with success=true, and a second
unload from the resulting state yields the identical successful reply and
leaves the state Unloaded. -/
theorem unload_idempotent (env : Env) (st : Option Nat) (req : Request)
    (hty : req.type = "unload") :
    dispatch env st req =
      (none,
       { type := "unloaded", success := some true, text := none,
         error := none, model_loaded := none },
       [])
    ∧ dispatch env (dispatch env st req).1 req =
      (none,
       { type := "unloaded", success := some true, text := none,
         error := none, model_loaded := none },
       []) := by
  constructor <;> simp [dispatch, hty, unloadModel]

theorem unload_idempotent_witness :
    dispatch envOk (some 3)
      { type := "unload", model_path := none, audio_path := none, language := none } =
      (none,
       { type := "unloaded", success := some true, text := none,
         error := none, model_loaded := none },
       [])
    ∧ dispatch envOk
        (dispatch envOk (some 3)
          { type := "unload", model_path := none, audio_path := none, language := none }).1
        { type := "unload", model_path := none, audio_path := none, language := none } =
      (none,
       { type := "unloaded", success := some true, text := none,
         error := none, model_loaded := none },
       []) :=
  unload_idempotent envOk (some 3)
    { type := "unload", model_path := none, audio_path := none, language := none } rfl

/-- C7: a load command with no model_path (resp. a transcribe command with
no audio_path) replies with the command's own outcome type — "loaded"
(resp. "transcription") — with success=false and an error naming the
missing field, not with a generic "error" reply; the engine state is
untouched and no environment call is made. -/
theorem missing_field_failed_outcome (env : Env) (st : Option Nat)
    (reqL reqT : Request)
    (hL : reqL.type = "load") (hLp : reqL.model_path = none)
    (hT : reqT.type = "transcribe") (hTp : reqT.audio_path = none) :
    dispatch env st reqL =
      (st,
       { type := "loaded", success := some false, text := none,
         error := some "Missing model_path", model_loaded := none },
       [])
    ∧ dispatch env st reqT =
      (st,
       { type := "transcription", success := some false, text := none,
         error := some "Missing audio_path", model_loaded := none },
       []) := by
  constructor
  · simp [dispatch, hL, hLp]
  · simp [dispatch, hT, hTp]

theorem missing_field_failed_outcome_witness :
    dispatch envOk (some 1)
      { type := "load", model_path := none, audio_path := none, language := none } =
      (some 1,
       { type := "loaded", success := some false, text := none,
         error := some "Missing model_path", model_loaded := none },
       [])
    ∧ dispatch envOk (some 1)
        { type := "transcribe", model_path := none, audio_path := none, language := none } =
      (some 1,
       { type := "transcription", success := some false, text := none,
         error := some "Missing audio_path", model_loaded := none },
       []) :=
  missing_field_failed_outcome envOk (some 1)
    { type := "load", model_path := none, audio_path := none, language := none }
    { type := "transcribe", model_path := none, audio_path := none, language := none }
    rfl rfl rfl rfl

theorem bytesToSamples_length : ∀ bs : List Nat,
    (bytesToSamples bs).length = bs.length / 4
  | [] => by simp [bytesToSamples]
  | [_] => by simp [bytesToSamples]
  | [_, _] => by simp [bytesToSamples]
  | [_, _, _] => by simp [bytesToSamples]
  | _ :: _ :: _ :: _ :: rest => by
      have ih := bytesToSamples_length rest
      simp [bytesToSamples, ih]
      omega

theorem bytesToSamples_short (bs : List Nat) (h : bs.length ≤ 3) :
    bytesToSamples bs = [] := by
  match bs with
  | [] => rfl
  | [_] => rfl
  | [_, _] => rfl
  | [_, _, _] => rfl
  | _ :: _ :: _ :: _ :: _ => simp at h

theorem bytesToSamples_word (w : Nat) (rest : List Nat) (hw : w < 4294967296) :
    bytesToSamples (wordToBytes w ++ rest) = w :: bytesToSamples rest := by
  simp [wordToBytes, bytesToSamples]
  omega

theorem bytesToSamples_roundtrip (ws extra : List Nat)
    (hw : ∀ w ∈ ws, w < 4294967296) (hx : extra.length ≤ 3) :
    bytesToSamples (wordsToBytes ws ++ extra) = ws := by
  induction ws with
  | nil => simpa [wordsToBytes] using bytesToSamples_short extra hx
  | cons w ws ih =>
      have hw0 : w < 4294967296 := hw w (by simp)
      have hws : ∀ v ∈ ws, v < 4294967296 := fun v hv => hw v (by simp [hv])
      simp [wordsToBytes, List.append_assoc, bytesToSamples_word w _ hw0, ih hws]

/-- C2: the audio decoder yields exactly floor(byteCount / 4) samples for
any byte sequence, and a fixture of N complete little-endian 32-bit-word
samples followed by at most 3 stray trailing bytes decodes back to exactly
those N samples — the remainder is dropped and, the decoder being total,
no error arises from it. -/
theorem audio_decode_truncation (bs ws extra : List Nat)
    (hw : ∀ w ∈ ws, w < 4294967296) (hx : extra.length ≤ 3) :
    (bytesToSamples bs).length = bs.length / 4
    ∧ bytesToSamples (wordsToBytes ws ++ extra) = ws :=
  ⟨bytesToSamples_length bs, bytesToSamples_roundtrip ws extra hw hx⟩

theorem audio_decode_truncation_witness :
    (bytesToSamples [1, 2, 3, 4, 5]).length = [1, 2, 3, 4, 5].length / 4
    ∧ bytesToSamples (wordsToBytes [16909060, 7] ++ [9, 9]) = [16909060, 7] :=
  audio_decode_truncation [1, 2, 3, 4, 5] [16909060, 7] [9, 9]
    (by decide) (by decide)

/-- C5: a malformed line yields exactly one "error" reply with the fixed
"Invalid JSON request" diagnostic, and a parsed command with an
unrecognized type yields exactly one "error" reply at dispatch; in both
cases the loop continues with the next line from the same engine state. -/
theorem invalid_and_unknown_line (env : Env) (st : Option Nat)
    (rest : List Line) (req : Request)
    (h1 : req.type ≠ "load") (h2 : req.type ≠ "transcribe")
    (h3 : req.type ≠ "unload") (h4 : req.type ≠ "health")
    (h5 : req.type ≠ "shutdown") :
    runLoop env st (Line.malformed :: rest) =
      { outputs := invalidJsonResp :: (runLoop env st rest).outputs,
        exit := (runLoop env st rest).exit,
        trace := (runLoop env st rest).trace,
        unread := (runLoop env st rest).unread }
    ∧ runLoop env st (Line.parsed req :: rest) =
      { outputs :=
          { type := "error", success := some false, text := none,
            error := some ("Unknown command: " ++ req.type), model_loaded := none }
          :: (runLoop env st rest).outputs,
        exit := (runLoop env st rest).exit,
        trace := (runLoop env st rest).trace,
        unread := (runLoop env st rest).unread } := by
  constructor
  · simp [runLoop]
  · simp [runLoop, h5, dispatch, h1, h2, h3, h4]

theorem invalid_and_unknown_line_witness :
    runLoop envOk none [Line.malformed] =
      { outputs := invalidJsonResp :: (runLoop envOk none []).outputs,
        exit := (runLoop envOk none []).exit,
        trace := (runLoop envOk none []).trace,
        unread := (runLoop envOk none []).unread }
    ∧ runLoop envOk none
        [Line.parsed { type := "bogus", model_path := none,
                       audio_path := none, language := none }] =
      { outputs :=
          { type := "error", success := some false, text := none,
            error := some ("Unknown command: " ++ "bogus"), model_loaded := none }
          :: (runLoop envOk none []).outputs,
        exit := (runLoop envOk none []).exit,
        trace := (runLoop envOk none []).trace,
        unread := (runLoop envOk none []).unread } :=
  invalid_and_unknown_line envOk none []
    { type := "bogus", model_path := none, audio_path := none, language := none }
    (by decide) (by decide) (by decide) (by decide) (by decide)

/-- Whether a line is a parsed shutdown command. -/
def isShutdownLine : Line → Bool
  | .parsed r => r.type == "shutdown"
  | _ => false

theorem runLoop_append_shutdown (env : Env) (req : Request)
    (hty : req.type = "shutdown") :
    ∀ (pre : List Line) (st : Option Nat),
      (∀ l ∈ pre, isShutdownLine l = false) →
      ∀ post : List Line,
      runLoop env st (pre ++ Line.parsed req :: post) =
        { outputs := (runLoop env st pre).outputs ++ [shutdownAckResp],
          exit := .shutdownExit,
          trace := (runLoop env st pre).trace,
          unread := post }
  | [], st, _, post => by simp [runLoop, hty]
  | l :: rest, st, hpre, post => by
      have hl : isShutdownLine l = false := hpre l (by simp)
      have hrest : ∀ x ∈ rest, isShutdownLine x = false :=
        fun x hx => hpre x (by simp [hx])
      cases l with
      | empty =>
          simpa [runLoop] using
            runLoop_append_shutdown env req hty rest st hrest post
      | malformed =>
          simp [runLoop, runLoop_append_shutdown env req hty rest st hrest post]
      | parsed r =>
          have hr : ¬ r.type = "shutdown" := by
            simpa [isShutdownLine] using hl
          rcases hd : dispatch env st r with ⟨st', resp, evs⟩
          simp [runLoop, hr, hd,
            runLoop_append_shutdown env req hty rest st' hrest post]

/-- C6: with a shutdown command in the stream after a shutdown-free
segment pre, the run's replies are exactly the replies for pre in order
followed by one shutdown_ack, the process exits via exit(0), the trace is
exactly the trace of pre, and every line after the shutdown command is left
unread (so nothing after it ever gets a reply). -/
theorem shutdown_strict_order (env : Env) (st : Option Nat)
    (pre post : List Line) (req : Request)
    (hpre : ∀ l ∈ pre, isShutdownLine l = false)
    (hty : req.type = "shutdown") :
    runLoop env st (pre ++ Line.parsed req :: post) =
      { outputs := (runLoop env st pre).outputs ++ [shutdownAckResp],
        exit := .shutdownExit,
        trace := (runLoop env st pre).trace,
        unread := post }
    ∧ exitCode .shutdownExit = 0 :=
  ⟨runLoop_append_shutdown env req hty pre st hpre post, rfl⟩

theorem shutdown_strict_order_witness :
    runLoop envOk none
      ([Line.parsed { type := "health", model_path := none,
                      audio_path := none, language := none },
        Line.malformed] ++
       Line.parsed { type := "shutdown", model_path := none,
                     audio_path := none, language := none } ::
       [Line.parsed { type := "unload", model_path := none,
                      audio_path := none, language := none }]) =
      { outputs :=
          (runLoop envOk none
            [Line.parsed { type := "health", model_path := none,
                           audio_path := none, language := none },
             Line.malformed]).outputs ++ [shutdownAckResp],
        exit := .shutdownExit,
        trace :=
          (runLoop envOk none
            [Line.parsed { type := "health", model_path := none,
                           audio_path := none, language := none },
             Line.malformed]).trace,
        unread := [Line.parsed { type := "unload", model_path := none,
                                 audio_path := none, language := none }] }
    ∧ exitCode .shutdownExit = 0 :=
  shutdown_strict_order envOk none
    [Line.parsed { type := "health", model_path := none,
                   audio_path := none, language := none },
     Line.malformed]
    [Line.parsed { type := "unload", model_path := none,
                   audio_path := none, language := none }]
    { type := "shutdown", model_path := none, audio_path := none, language := none }
    (by decide) rfl

theorem dispatch_model_loaded_none (env : Env) (st : Option Nat)
    (req : Request) (h : req.type ≠ "health") :
    (dispatch env st req).2.1.model_loaded = none := by
  simp only [dispatch]
  split_ifs with h1 h2 h3
  · split
    · rfl
    · split <;> rfl
  · split
    · rfl
    · split <;> rfl
  · rfl
  · rfl

theorem encodeResponse_no_model_loaded (r : Response)
    (h : r.model_loaded = none) :
    "model_loaded" ∉ (encodeResponse r).map Prod.fst := by
  rcases r with ⟨ty, s, t, e, m⟩
  simp only at h
  subst h
  cases s <;> cases t <;> cases e <;> simp [encodeResponse]

/-- C8: a health command replies with type "health" and model_loaded equal
to whether a model is loaded (false in the Unloaded state), the serialized
health reply contains exactly the type and model_loaded keys (success,
text, error omitted), and no reply to a non-health command ever carries a
model_loaded key. -/
theorem health_reply_and_field_omission (env : Env) (st : Option Nat)
    (req reqO : Request) (hty : req.type = "health")
    (hO : reqO.type ≠ "health") :
    dispatch env st req =
      (st,
       { type := "health", success := none, text := none,
         error := none, model_loaded := some (isModelLoaded st) },
       [])
    ∧ isModelLoaded none = false
    ∧ encodeResponse (dispatch env st req).2.1 =
        [("type", JsonVal.str "health"),
         ("model_loaded", JsonVal.bool (isModelLoaded st))]
    ∧ "model_loaded" ∉ (encodeResponse (dispatch env st reqO).2.1).map Prod.fst := by
  have h1 : dispatch env st req =
      (st,
       { type := "health", success := none, text := none,
         error := none, model_loaded := some (isModelLoaded st) },
       []) := by
    simp [dispatch, hty]
  refine ⟨h1, rfl, ?_, ?_⟩
  · rw [h1]
    simp [encodeResponse]
  · exact encodeResponse_no_model_loaded _ (dispatch_model_loaded_none env st reqO hO)

theorem health_reply_and_field_omission_witness :
    dispatch envOk none
      { type := "health", model_path := none, audio_path := none, language := none } =
      (none,
       { type := "health", success := none, text := none,
         error := none, model_loaded := some (isModelLoaded none) },
       [])
    ∧ isModelLoaded none = false
    ∧ encodeResponse
        (dispatch envOk none
          { type := "health", model_path := none,
            audio_path := none, language := none }).2.1 =
        [("type", JsonVal.str "health"),
         ("model_loaded", JsonVal.bool (isModelLoaded none))]
    ∧ "model_loaded" ∉
        (encodeResponse
          (dispatch envOk none
            { type := "unload", model_path := none,
              audio_path := none, language := none }).2.1).map Prod.fst :=
  health_reply_and_field_omission envOk none
    { type := "health", model_path := none, audio_path := none, language := none }
    { type := "unload", model_path := none, audio_path := none, language := none }
    rfl (by decide)

/-- C9: a successful transcribe returns the segment texts joined by a
single space and trimmed, the inference call receives exactly the decoded
samples with the assembled options, and those options carry an explicit
language tag exactly when the command supplied one different from
"auto". -/
theorem transcribe_success_shape (env : Env) (kit : Nat) (p : String)
    (lang : Option String) (bytes : List Nat) (segs : List String)
    (hr : env.readFile p = .ok bytes)
    (ht : env.transcribeKit kit (bytesToSamples bytes) (mkOptions lang) = .ok segs) :
    transcribe env (some kit) p lang =
      (.ok (String.intercalate " " segs).trim,
       [.readAudio p, .inference kit (bytesToSamples bytes) (mkOptions lang)])
    ∧ ∀ l : String,
        ((mkOptions lang).language = some l ↔ lang = some l ∧ l ≠ "auto") := by
  constructor
  · simp [transcribe, hr, ht]
  · intro l
    cases lang with
    | none => simp [mkOptions]
    | some l0 =>
        by_cases hl : l0 = "auto"
        · subst hl
          simp [mkOptions]
          rintro rfl
          simp
        · simp [mkOptions, hl]
          rintro rfl
          exact hl

theorem transcribe_success_shape_witness :
    transcribe envOk (some 0) "a.pcm" (some "dv") =
      (.ok (String.intercalate " " []).trim,
       [.readAudio "a.pcm",
        .inference 0 (bytesToSamples []) (mkOptions (some "dv"))])
    ∧ ∀ l : String,
        ((mkOptions (some "dv")).language = some l ↔
          some "dv" = some l ∧ l ≠ "auto") :=
  transcribe_success_shape envOk 0 "a.pcm" (some "dv") [] [] rfl rfl

/-- C10: with a model loaded and a readable audio file of fewer than 4
bytes, decoding yields the empty sample sequence, the inference capability
is still invoked on that empty sequence, and the transcription outcome is
exactly whatever inference returns — the sidecar never rejects zero-sample
input on its own. -/
theorem empty_decode_still_infers (env : Env) (kit : Nat) (p : String)
    (lang : Option String) (bytes : List Nat)
    (hr : env.readFile p = .ok bytes) (hlen : bytes.length < 4) :
    bytesToSamples bytes = []
    ∧ (transcribe env (some kit) p lang).2 =
        [.readAudio p, .inference kit [] (mkOptions lang)]
    ∧ (transcribe env (some kit) p lang).1 =
        (match env.transcribeKit kit [] (mkOptions lang) with
         | .ok results => .ok (String.intercalate " " results).trim
         | .error e => .error e) := by
  have h0 : bytesToSamples bytes = [] :=
    bytesToSamples_short bytes (by omega)
  refine ⟨h0, ?_, ?_⟩ <;>
  · cases henv : env.transcribeKit kit [] (mkOptions lang) <;>
      simp [transcribe, hr, h0, henv]

theorem empty_decode_still_infers_witness :
    bytesToSamples [] = []
    ∧ (transcribe envOk (some 0) "tiny.pcm" none).2 =
        [.readAudio "tiny.pcm", .inference 0 [] (mkOptions none)]
    ∧ (transcribe envOk (some 0) "tiny.pcm" none).1 =
        (match envOk.transcribeKit 0 [] (mkOptions none) with
         | .ok results => .ok (String.intercalate " " results).trim
         | .error e => .error e) :=
  empty_decode_still_infers envOk 0 "tiny.pcm" none [] rfl (by decide)

end DhivehiFlow
